import Mathlib

/-!
Verification of the outgoing-message adapter of `fetch-to-node-broken`
(`src/fetch-to-node-broken/http-server.ts`).

JavaScript strings are modelled as `List Char` (one element per UTF-16 code
unit; all strings appearing here are within the basic plane, where Lean
characters and code units coincide).  Byte sequences (`Buffer`/`Uint8Array`)
are `List Nat` with every element below 256.  The asynchronously resolved
`fetchResponse` promise is modelled as an `Option ResolvedResponse` field of
the server-response state: `none` means the promise is still pending.

The superclass `FetchOutgoingMessage` (`http-outgoing.ts`) is not part of the
sources; the operations it provides (`write`, `end`, `_storeHeader`, header
storage) are modelled from the specification, as marked on each definition.
-/

/-- UTF-8 encoding of one character (the `TextEncoder` used at
`http-server.ts:221` produces exactly the UTF-8 bytes of the string). -/
def utf8EncodeChar (c : Char) : List Nat :=
  let n := c.toNat
  if n < 0x80 then [n]
  else if n < 0x800 then
    [0xC0 ||| (n >>> 6), 0x80 ||| (n &&& 0x3F)]
  else if n < 0x10000 then
    [0xE0 ||| (n >>> 12), 0x80 ||| ((n >>> 6) &&& 0x3F), 0x80 ||| (n &&& 0x3F)]
  else
    [0xF0 ||| (n >>> 18), 0x80 ||| ((n >>> 12) &&& 0x3F),
     0x80 ||| ((n >>> 6) &&& 0x3F), 0x80 ||| (n &&& 0x3F)]

/-- UTF-8 encoding of a string, as produced by `FetchServerResponse.encoder`. -/
def utf8Encode (s : List Char) : List Nat :=
  (s.map utf8EncodeChar).flatten

/-- A body-write payload: a JavaScript string, raw binary
(`Buffer`/`Uint8Array`), or any other value (for example a plain number) —
the unsupported-payload case the adapter must reject. -/
inductive Payload
  | str (s : List Char)
  | bytes (b : List Nat)
  | invalid
  deriving DecidableEq, Repr

/-- The `entry` carried by a `DataWrittenEvent`: the raw payload plus the
optional encoding name passed to the write call. -/
structure WriteEntry where
  data : Payload
  encoding : Option (List Char)
  deriving DecidableEq, Repr

/-- The error kinds thrown by the adapter (`../utils/errors.js`). -/
inductive HttpError
  | headersSent
  | invalidStatusCode (original : Int)
  | invalidChar
  | invalidArgType
  | invalidArgValue
  | methodNotImplemented
  deriving DecidableEq, Repr

/-- `checkInvalidHeaderChar` (`http-server.ts:45-47`): true when the value
contains a character outside tab, visible ASCII and the high-byte range
(the regex `[^\t\x20-\x7e\x80-\xff]`). -/
def checkInvalidHeaderChar (val : List Char) : Bool :=
  val.any fun c =>
    decide (¬ (c.toNat = 9 ∨ (32 ≤ c.toNat ∧ c.toNat ≤ 126) ∨
               (128 ≤ c.toNat ∧ c.toNat ≤ 255)))

/-- The status-code lookup table `STATUS_CODES` (`http-server.ts:51-115`). -/
def STATUS_CODES (n : Nat) : Option String :=
  match n with
  | 100 => some "Continue"
  | 101 => some "Switching Protocols"
  | 102 => some "Processing"
  | 103 => some "Early Hints"
  | 200 => some "OK"
  | 201 => some "Created"
  | 202 => some "Accepted"
  | 203 => some "Non-Authoritative Information"
  | 204 => some "No Content"
  | 205 => some "Reset Content"
  | 206 => some "Partial Content"
  | 207 => some "Multi-Status"
  | 208 => some "Already Reported"
  | 226 => some "IM Used"
  | 300 => some "Multiple Choices"
  | 301 => some "Moved Permanently"
  | 302 => some "Found"
  | 303 => some "See Other"
  | 304 => some "Not Modified"
  | 305 => some "Use Proxy"
  | 307 => some "Temporary Redirect"
  | 308 => some "Permanent Redirect"
  | 400 => some "Bad Request"
  | 401 => some "Unauthorized"
  | 402 => some "Payment Required"
  | 403 => some "Forbidden"
  | 404 => some "Not Found"
  | 405 => some "Method Not Allowed"
  | 406 => some "Not Acceptable"
  | 407 => some "Proxy Authentication Required"
  | 408 => some "Request Timeout"
  | 409 => some "Conflict"
  | 410 => some "Gone"
  | 411 => some "Length Required"
  | 412 => some "Precondition Failed"
  | 413 => some "Payload Too Large"
  | 414 => some "URI Too Long"
  | 415 => some "Unsupported Media Type"
  | 416 => some "Range Not Satisfiable"
  | 417 => some "Expectation Failed"
  | 418 => some "I'm a Teapot"
  | 421 => some "Misdirected Request"
  | 422 => some "Unprocessable Entity"
  | 423 => some "Locked"
  | 424 => some "Failed Dependency"
  | 425 => some "Too Early"
  | 426 => some "Upgrade Required"
  | 428 => some "Precondition Required"
  | 429 => some "Too Many Requests"
  | 431 => some "Request Header Fields Too Large"
  | 451 => some "Unavailable For Legal Reasons"
  | 500 => some "Internal Server Error"
  | 501 => some "Not Implemented"
  | 502 => some "Bad Gateway"
  | 503 => some "Service Unavailable"
  | 504 => some "Gateway Timeout"
  | 505 => some "HTTP Version Not Supported"
  | 506 => some "Variant Also Negotiates"
  | 507 => some "Insufficient Storage"
  | 508 => some "Loop Detected"
  | 509 => some "Bandwidth Limit Exceeded"
  | 510 => some "Not Extended"
  | 511 => some "Network Authentication Required"
  | _ => none

/-- `STATUS_CODES[statusCode] || "unknown"` (`http-server.ts:315`). -/
def defaultReason (n : Nat) : List Char :=
  ((STATUS_CODES n).getD "unknown").data

/-- JavaScript `statusCode |= 0`: truncation to a signed 32-bit integer
(`http-server.ts:305`). -/
def toInt32 (n : Int) : Int :=
  let m := n % 4294967296
  if m < 2147483648 then m else m - 4294967296

/-- The `headers` argument of `writeHead`: either an `OutgoingHttpHeaders`
object (insertion-ordered name/value pairs) or the flat
`[name, value, name, value, ...]` array form.  Header values are modelled as
strings (the claims use no numeric or array-valued headers). -/
inductive HeadersArg
  | obj (pairs : List (List Char × List Char))
  | arr (flat : List (List Char))
  deriving DecidableEq, Repr

/-- The second argument of `writeHead`: a reason phrase or a headers value. -/
inductive ReasonArg
  | phrase (r : List Char)
  | headers (h : HeadersArg)
  deriving DecidableEq, Repr

/-- Group a flat `[k, v, k, v, ...]` list into pairs (a trailing odd element
is dropped). -/
def pairUp : List (List Char) → List (List Char × List Char)
  | a :: b :: rest => (a, b) :: pairUp rest
  | _ => []

/-- The ordered pair list denoted by a `writeHead` headers argument. -/
def headersArgPairs : HeadersArg → List (List Char × List Char)
  | HeadersArg.obj pairs => pairs
  | HeadersArg.arr flat => pairUp flat

/-- Case-insensitive header-name identity (names are compared lowercased). -/
def lowerChars (n : List Char) : List Char :=
  n.map Char.toLower

/-- Modelled from the spec: the `removeHeader` operation of the missing
`http-outgoing.ts` — drop every stored header whose name matches
case-insensitively. -/
def removeHeaderStore (hs : List (List Char × List Char)) (n : List Char) :
    List (List Char × List Char) :=
  hs.filter fun p => !(lowerChars p.1 == lowerChars n)

/-- Modelled from the spec: the `setHeader` operation of the missing
`http-outgoing.ts` — replace in place when the name is already stored
(case-insensitively), otherwise append. -/
def setHeaderStore (hs : List (List Char × List Char)) (n v : List Char) :
    List (List Char × List Char) :=
  if hs.any (fun p => lowerChars p.1 == lowerChars n) then
    hs.map fun p => if lowerChars p.1 == lowerChars n then (n, v) else p
  else hs ++ [(n, v)]

/-- Modelled from the spec: the `appendHeader` operation of the missing
`http-outgoing.ts` — add a value without removing existing ones (stored here
as an additional pair, which is how it appears on the wire). -/
def appendHeaderStore (hs : List (List Char × List Char)) (n v : List Char) :
    List (List Char × List Char) :=
  hs ++ [(n, v)]

/-- First `Option` if present, otherwise the second (JavaScript `obj ??= reason`,
`http-server.ts:316`). -/
def orElseOpt (a b : Option HeadersArg) : Option HeadersArg :=
  match a with
  | some x => some x
  | none => b

/-- The header-merging block of `writeHead` (`http-server.ts:320-360`):
given the current `kOutHeaders` store (`none` models the initial `null`) and
the headers argument, produce the updated store and the pair list handed to
`_storeHeader`.  An odd-length array form fails with `InvalidArgumentValue`
before any removal (`http-server.ts:325-327`); names that are empty strings
are skipped on append/set (`if (k)` at lines 340 and 350), while the removal
loop runs unconditionally (line 335). -/
def applyHeadersArg (outHeaders : Option (List (List Char × List Char)))
    (objArg : Option HeadersArg) :
    Except HttpError
      (Option (List (List Char × List Char)) × Option (List (List Char × List Char))) :=
  match outHeaders with
  | some oh =>
    match objArg with
    | some (HeadersArg.arr flat) =>
      if flat.length % 2 ≠ 0 then Except.error HttpError.invalidArgValue
      else
        let removed := (pairUp flat).foldl (fun acc p => removeHeaderStore acc p.1) oh
        let appended := (pairUp flat).foldl
          (fun acc p => if p.1 = [] then acc else appendHeaderStore acc p.1 p.2) removed
        Except.ok (some appended, some appended)
    | some (HeadersArg.obj pairs) =>
      let updated := pairs.foldl
        (fun acc p => if p.1 = [] then acc else setHeaderStore acc p.1 p.2) oh
      Except.ok (some updated, some updated)
    | none => Except.ok (some oh, some oh)
  | none => Except.ok (none, objArg.map headersArgPairs)

/-- The immutable snapshot the promise is resolved with: the data of the
`Response` object built by `_toFetchResponse` (`http-server.ts:407-451`),
except for the body chunks, which keep accumulating in the stream and are
therefore kept in the server-response state. -/
structure ResolvedResponse where
  status : Int
  statusText : List Char
  headers : List (List Char × List Char)
  hasBody : Bool
  deriving DecidableEq, Repr

/-- The state of one `FetchServerResponse` together with its response bridge:
the header-state machine (`statusCode`, `statusMessage`, `outHeaders`,
`header`, `writtenHeaderBytes`, `sentHeaders`, `hasBody`), the write counter
(`nextIndex`, the length of the output-data array), the bridge
(`finished`, `initialDataChunks`, `resolved`, `streamChunks`, `streamClosed`)
and the list of errors the detached event pipeline absorbed (`swallowed`). -/
structure SrvState where
  statusCode : Int
  statusMessage : Option (List Char)
  outHeaders : Option (List (List Char × List Char))
  hasBody : Bool
  header : Option (List Char)
  writtenHeaderBytes : Nat
  sentHeaders : List (List Char × List Char)
  nextIndex : Nat
  finished : Bool
  initialDataChunks : List (Option Payload)
  resolved : Option ResolvedResponse
  streamChunks : List Payload
  streamClosed : Bool
  swallowed : List HttpError
  deriving DecidableEq, Repr

/-- The `FetchServerResponse` constructor (`http-server.ts:146-196`):
default status 200, no status message yet, headers mutable, `_hasBody`
cleared when the paired request's method is `HEAD` (lines 149-151), and the
`fetchResponse` promise pending (`resolved = none`). -/
def mkResponse (reqMethod : List Char) : SrvState :=
  { statusCode := 200
    statusMessage := none
    outHeaders := none
    hasBody := if reqMethod = "HEAD".data then false else true
    header := none
    writtenHeaderBytes := 0
    sentHeaders := []
    nextIndex := 0
    finished := false
    initialDataChunks := []
    resolved := none
    streamChunks := []
    streamClosed := false
    swallowed := [] }

/-- A fresh response paired with an ordinary (non-`HEAD`) request. -/
def initState : SrvState :=
  mkResponse "GET".data

/-- Modelled from the spec: `Buffer.from(string, encoding)` for the
non-UTF-8 encodings (only the single-byte encodings are modelled; the claims
exercise none of them). -/
def bufferFrom (c : List Char) (enc : List Char) : List Nat :=
  let _ := enc
  c.map fun ch => ch.toNat % 256

/-- The encoding step of `dataFromDataWrittenEvent`
(`http-server.ts:215-227`): a string is UTF-8 encoded when the encoding is
absent, `utf8` or `utf-8`, and otherwise converted with
`Buffer.from(data, encoding)`; a non-string payload passes through unchanged
(line 227, `return data ?? Buffer.from([])`). -/
def encodeIfString (p : Payload) (encoding : Option (List Char)) : Payload :=
  match p with
  | Payload.str c =>
    if encoding = none ∨ encoding = some "utf8".data ∨ encoding = some "utf-8".data then
      Payload.bytes (utf8Encode c)
    else
      Payload.bytes (bufferFrom c (encoding.getD []))
  | p => p

/-- `dataFromDataWrittenEvent` (`http-server.ts:198-228`): the chunk at
index 0 must be a string — the first `writtenHeaderBytes` code units (the
header block written into the same stream position) are sliced off before
encoding — and any other payload type at index 0 throws
`ERR_INVALID_ARG_TYPE` (lines 203-210). -/
def dataFromDataWrittenEvent (writtenHeaderBytes : Nat) (index : Nat)
    (entry : WriteEntry) : Except HttpError Payload :=
  if index = 0 then
    match entry.data with
    | Payload.str c =>
      Except.ok (encodeIfString (Payload.str (c.drop writtenHeaderBytes)) entry.encoding)
    | _ => Except.error HttpError.invalidArgType
  else
    Except.ok (encodeIfString entry.data entry.encoding)

/-- JavaScript sparse-array indexed assignment
(`initialDataChunks[e.index] = ...`, `http-server.ts:178`): positions below
the index that were never written are holes (`none`). -/
def sparseSet (l : List (Option Payload)) (i : Nat) (v : Payload) :
    List (Option Payload) :=
  if i < l.length then l.set i (some v)
  else l ++ List.replicate (i - l.length) none ++ [some v]

/-- Delivery of one `_dataWritten` event to whichever handler is currently
subscribed.  Before resolution this is `initialDataWrittenHandler`
(`http-server.ts:174-179`): skip when `finished`, otherwise materialize and
buffer at the event's index.  After resolution it is the stream handler
(`http-server.ts:434-440`): it exists only when the response has a body, and
skips once `finished`.  A throw out of `dataFromDataWrittenEvent` is
absorbed by the detached event pipeline (recorded in `swallowed`; the
returned flag is `false`), which is the documented defect of this
repository: the error surfaces nowhere. -/
def deliverDataWritten (s : SrvState) (idx : Nat) (entry : WriteEntry) :
    SrvState × Bool :=
  match s.resolved with
  | none =>
    if s.finished then (s, true)
    else
      match dataFromDataWrittenEvent s.writtenHeaderBytes idx entry with
      | Except.ok c =>
        ({ s with initialDataChunks := sparseSet s.initialDataChunks idx c }, true)
      | Except.error e => ({ s with swallowed := s.swallowed ++ [e] }, false)
  | some r =>
    if !r.hasBody then (s, true)
    else if s.finished then (s, true)
    else
      match dataFromDataWrittenEvent s.writtenHeaderBytes idx entry with
      | Except.ok c => ({ s with streamChunks := s.streamChunks ++ [c] }, true)
      | Except.error e => ({ s with swallowed := s.swallowed ++ [e] }, false)

/-- Delivery of the `_headersSent` event (`http-server.ts:181-194`) and the
body of `_toFetchResponse` (`http-server.ts:407-451`): resolve the promise —
at most once — with the final status, reason and headers (header names are
lowercased as `Headers.append` does); when a body is expected, start the
stream by enqueuing every buffered chunk in index order (a hole in the
sparse array yields a non-byte value, modelled `Payload.invalid`) and close
it immediately when `finished` was already true; otherwise the body is
`null` and no stream handler is ever subscribed. -/
def emitHeadersSent (s : SrvState) : SrvState :=
  if s.resolved.isSome then s
  else
    let r : ResolvedResponse :=
      { status := s.statusCode
        statusText := s.statusMessage.getD []
        headers := s.sentHeaders.map fun p => (lowerChars p.1, p.2)
        hasBody := s.hasBody }
    if s.hasBody then
      { s with resolved := some r
               streamChunks := s.initialDataChunks.map (fun o => o.getD Payload.invalid)
               streamClosed := s.finished }
    else
      { s with resolved := some r, streamClosed := true }

/-- Delivery of the `finish` event: the constructor's listener sets the
`finished` flag (`http-server.ts:170-172`), and the stream's listener closes
the controller (`http-server.ts:430-433`) when a stream was created. -/
def emitFinish (s : SrvState) : SrvState :=
  { s with finished := true
           streamClosed := s.resolved.isSome || s.streamClosed }

/-- The status line `HTTP/1.1 <status> <reason>\r\n` (`http-server.ts:366`). -/
def statusLineFor (code32 : Int) (msg : List Char) : List Char :=
  "HTTP/1.1 ".data ++ (toString code32).data ++ " ".data ++ msg ++ "\r\n".data

/-- Modelled from the spec: the header-codec rendering of the wire header
block — the status line followed by one `name: value\r\n` line per ordered
pair and a terminating blank line.  The default `Date`/`Connection`/
`Transfer-Encoding` headers the real `_storeHeader` adds are omitted. -/
def renderHeaderBlock (statusLine : List Char)
    (pairs : List (List Char × List Char)) : List Char :=
  statusLine ++
    (pairs.map fun p => p.1 ++ ": ".data ++ p.2 ++ "\r\n".data).flatten ++
    "\r\n".data

/-- Modelled from the spec: `_storeHeader` of the missing
`http-outgoing.ts` — compute the header block, make headers immutable by
recording it in `_header`, remember how many leading code units of chunk 0
are header material (`writtenHeaderBytes`), and take the immutable
`HeadersSentEvent` snapshot of the ordered pair list. -/
def storeHeader (s : SrvState) (statusLine : List Char)
    (hdrs : Option (List (List Char × List Char))) : SrvState :=
  let pairs := hdrs.getD []
  let block := renderHeaderBlock statusLine pairs
  { s with header := some block
           writtenHeaderBytes := block.length
           sentHeaders := pairs }

/-- JavaScript `this.statusMessage ||= x` (`http-server.ts:315`): assign only
when the current value is falsy (`undefined` or the empty string). -/
def defaultMsg (cur : Option (List Char)) (code32 : Int) : Option (List Char) :=
  match cur with
  | none => some (defaultReason code32.toNat)
  | some [] => some (defaultReason code32.toNat)
  | some m => some m

/-- `writeHead` (`http-server.ts:294-400`): fail with `HeadersAlreadySent`
when `_header` is set; truncate the status code with `|= 0` and fail with
`InvalidStatusCode` (carrying the original argument) outside `[100, 999]`;
take a string second argument as the reason phrase and otherwise default the
status message from the lookup table; merge the headers argument through
`kOutHeaders` when the progressive API was used; validate the status message
characters; clear `_hasBody` for 204, 304 and 1xx; store the header block. -/
def writeHead (s : SrvState) (code : Int) (reason : Option ReasonArg)
    (obj : Option HeadersArg) : SrvState × Option HttpError :=
  if s.header.isSome then (s, some HttpError.headersSent)
  else
    let code32 := toInt32 code
    if code32 < 100 ∨ 999 < code32 then (s, some (HttpError.invalidStatusCode code))
    else
      let msgObj :=
        match reason with
        | some (ReasonArg.phrase r) => (some r, obj)
        | some (ReasonArg.headers h) => (defaultMsg s.statusMessage code32, orElseOpt obj (some h))
        | none => (defaultMsg s.statusMessage code32, obj)
      let msg := msgObj.1
      let objArg := msgObj.2
      let s1 := { s with statusMessage := msg, statusCode := code32 }
      match applyHeadersArg s1.outHeaders objArg with
      | Except.error e => (s1, some e)
      | Except.ok (oh, hdrs) =>
        let s2 := { s1 with outHeaders := oh }
        if checkInvalidHeaderChar (msg.getD []) then (s2, some HttpError.invalidChar)
        else
          let statusLine := statusLineFor code32 (msg.getD [])
          let s3 :=
            if code32 = 204 ∨ code32 = 304 ∨ (100 ≤ code32 ∧ code32 ≤ 199) then
              { s2 with hasBody := false }
            else s2
          (storeHeader s3 statusLine hdrs, none)

/-- Modelled from the spec: the body-write path of the missing
`http-outgoing.ts`.  On the first body write, headers are synthesized
implicitly when still open (`_implicitHeader`, `http-server.ts:290-292`,
which calls `writeHead(this.statusCode)`), the header block is prepended to
a string chunk 0 (header bytes and first-chunk body bytes share the stream
position), and the `_dataWritten` event for the chunk is delivered followed
by the `_headersSent` event that resolves the promise.  The delivery is
detached (§9 of the spec, and this repository's README): when chunk
materialization throws inside the handler, the error is swallowed, the rest
of the pipeline — including the `_headersSent` emission — is skipped, and
nothing is re-raised to the caller of the write.  The path is split into
`applyDataEvent`, `firstChunkData`, `writeAfterHeaders` and `write` below.

Deliver the `_dataWritten` event for one recorded chunk and, when it is
chunk 0 and the handler did not throw, follow it with the `_headersSent`
emission; a swallowed throw aborts the pipeline before that emission. -/
def applyDataEvent (s : SrvState) (idx : Nat) (entry : WriteEntry) : SrvState :=
  match deliverDataWritten s idx entry with
  | (s1, true) => if idx = 0 then emitHeadersSent s1 else s1
  | (s1, false) => s1

/-- The chunk 0 payload: the header block is prepended to a string first
chunk (header bytes and first-chunk body bytes share the stream position);
any other payload is passed through and will fail the string check of
`dataFromDataWrittenEvent`. -/
def firstChunkData (p : Payload) (header : Option (List Char)) : Payload :=
  match p, header with
  | Payload.str c, some hb => Payload.str (hb ++ c)
  | _, _ => p

/-- The body-write pipeline once headers are known: record the chunk in the
output array (`nextIndex` grows), deliver its `_dataWritten` event, and —
when this was chunk 0 and its materialization did not throw — emit the
`_headersSent` event that resolves the promise. -/
def writeAfterHeaders (s : SrvState) (p : Payload) (enc : Option (List Char)) :
    SrvState :=
  let idx := s.nextIndex
  let dataArg := if idx = 0 then firstChunkData p s.header else p
  applyDataEvent { s with nextIndex := idx + 1 } idx
    { data := dataArg, encoding := enc }

/-- Modelled from the spec: `write` of the missing `http-outgoing.ts` —
synthesize headers implicitly on the first body write when they are still
open (`_implicitHeader`, `http-server.ts:290-292`, which calls
`writeHead(this.statusCode)`), then run the body-write pipeline.  A
validation error from the implicit `writeHead` is re-raised synchronously;
a failure inside the detached event pipeline is not. -/
def write (s0 : SrvState) (p : Payload) (enc : Option (List Char)) :
    SrvState × Option HttpError :=
  match (if s0.header.isNone then writeHead s0 s0.statusCode none none else (s0, none)) with
  | (s, some err) => (s, some err)
  | (s, none) => (writeAfterHeaders s p enc, none)

/-- Modelled from the spec: the end-of-output operation of the missing
`http-outgoing.ts` — flush the optional final chunk, write the header block
itself as chunk 0 when no body chunk was ever written (so the headers-sent
moment is always reached), then fire the `finish` signal. -/
def endFn (s : SrvState) (chunk : Option (Payload × Option (List Char))) :
    SrvState × Option HttpError :=
  let flushed :=
    match chunk with
    | some pe => write s pe.1 pe.2
    | none => (s, none)
  match flushed with
  | (s1, some err) => (s1, some err)
  | (s1, none) =>
    let headered :=
      if s1.nextIndex = 0 then write s1 (Payload.str []) none else (s1, none)
    match headered with
    | (s2, some err) => (s2, some err)
    | (s2, none) => (emitFinish s2, none)

/-- One application-level call against the legacy-shaped response object. -/
inductive ServerOp
  | writeOp (p : Payload) (enc : Option (List Char))
  | endWith (chunk : Option (Payload × Option (List Char)))
  | writeHeadOp (code : Int) (reason : Option ReasonArg) (obj : Option HeadersArg)
  deriving Repr

/-- Execute one call, keeping the resulting state whether or not the call
threw (a caller that catches the exception observes exactly this state). -/
def stepOp (s : SrvState) (op : ServerOp) : SrvState :=
  match op with
  | ServerOp.writeOp p e => (write s p e).1
  | ServerOp.endWith c => (endFn s c).1
  | ServerOp.writeHeadOp c r o => (writeHead s c r o).1

/-- Execute a sequence of calls. -/
def run (s : SrvState) (ops : List ServerOp) : SrvState :=
  ops.foldl stepOp s

/-- A single string body write with default encoding. -/
def writeStr (s : SrvState) (c : List Char) : SrvState :=
  (write s (Payload.str c) none).1

/-- A sequence of string body writes. -/
def runWrites (s : SrvState) (cs : List (List Char)) : SrvState :=
  cs.foldl writeStr s

/-- The body of the resolved `Response`: `none` while the promise is pending
or when the response was built with a `null` body, otherwise the chunk
sequence enqueued into the `ReadableStream`. -/
def responseBody (s : SrvState) : Option (List Payload) :=
  match s.resolved with
  | none => none
  | some r => if r.hasBody then some s.streamChunks else none

/-- The bytes of a materialized chunk (non-byte junk contributes nothing). -/
def payloadBytes : Payload → List Nat
  | Payload.bytes b => b
  | _ => []

/-- The consumed body as one byte sequence. -/
def responseBodyBytes (s : SrvState) : Option (List Nat) :=
  (responseBody s).map fun chunks => (chunks.map payloadBytes).flatten

/-- The literal scenario of C7: explicit `writeHead(200, {content-type:
text/plain})`, one `write("hello")`, then `end()`. -/
def textPlainScenario : SrvState :=
  run initState
    [ServerOp.writeHeadOp 200
        (some (ReasonArg.headers (HeadersArg.obj
          [("content-type".data, "text/plain".data)]))) none,
     ServerOp.writeOp (Payload.str "hello".data) none,
     ServerOp.endWith none]

/-- The no-body invariant behind C3 and C9: the header-state machine has
`_hasBody` cleared, and if the promise already resolved it resolved with a
`null` body. -/
def NoBodyInv (s : SrvState) : Prop :=
  s.hasBody = false ∧ ∀ r, s.resolved = some r → r.hasBody = false

/-- The header block synthesized by the implicit `writeHead(200)` (no
stored headers): status line plus the terminating blank line. -/
def implicitBlock : List Char :=
  "HTTP/1.1 200 OK\r\n\r\n".data

/-- The snapshot the promise resolves with after an implicit header send
with default status 200 and no headers. -/
def resolved200 : ResolvedResponse :=
  { status := 200, statusText := "OK".data, headers := [], hasBody := true }

/-- The state of a fresh response right after the implicit `writeHead(200)`:
only the status message, the header block and its length change. -/
def sentState : SrvState :=
  { initState with
      statusMessage := some "OK".data
      header := some implicitBlock
      writtenHeaderBytes := 19 }

/-! ## Theorems -/

/-- `(l₁ ++ l₂).drop l₁.length = l₂`: dropping a prefix of its own length. -/
theorem dropLenAppend {α : Type} (l₁ l₂ : List α) :
    (l₁ ++ l₂).drop l₁.length = l₂ := by
  induction l₁ with
  | nil => rfl
  | cons a t ih => simp [ih]

/-- `|= 0` is the identity on integers already in signed 32-bit range. -/
theorem toInt32_of_lt (n : Int) (h0 : 0 ≤ n) (h1 : n < 2147483648) :
    toInt32 n = n := by
  unfold toInt32
  rw [Int.emod_eq_of_lt h0 (by omega)]
  simp [h1]

/-- C1: the claim requires that a synchronous chunk-materialization failure
(an unsupported payload type as first body chunk with no prior `writeHead`)
either rejects the pending `fetchResponse` or re-raises synchronously to the
write caller.  Evaluating the code at that failing input shows the opposite:
the write reports no error to its caller, the `ERR_INVALID_ARG_TYPE` throw
is absorbed by the detached event pipeline, the promise stays pending, and
it remains pending even after the finish operation — the documented silent
hang of this repository. -/
theorem c1_invalid_first_chunk_swallowed :
    (write initState Payload.invalid none).2 = none ∧
    (write initState Payload.invalid none).1.resolved = none ∧
    (write initState Payload.invalid none).1.swallowed = [HttpError.invalidArgType] ∧
    (endFn (write initState Payload.invalid none).1 none).1.resolved = none := by
  decide

/-- C4 counterexample: the argument 4294967496 lies outside [100, 999], yet
`writeHead` does not fail — the `|= 0` truncation runs before the range
check and maps it to 200, and the call goes on to send the headers. -/
theorem c4_truncation_counterexample :
    ((4294967496 : Int) < 100 ∨ 999 < (4294967496 : Int)) ∧
    (writeHead initState 4294967496 none none).2 = none ∧
    (writeHead initState 4294967496 none none).1.statusCode = 200 ∧
    (writeHead initState 4294967496 none none).1.header.isSome = true := by
  decide

/-- C4 (amended): for every status-code argument whose 32-bit truncation
(`|= 0`) lies outside [100, 999], called while headers are unsent,
`writeHead` fails with `InvalidStatusCode` carrying the original argument,
and the state is completely unchanged. -/
theorem c4_range_check_after_truncation (s : SrvState) (code : Int)
    (reason : Option ReasonArg) (obj : Option HeadersArg)
    (h1 : s.header.isSome = false)
    (h2 : toInt32 code < 100 ∨ 999 < toInt32 code) :
    writeHead s code reason obj = (s, some (HttpError.invalidStatusCode code)) := by
  unfold writeHead
  simp [h1, h2]

/-- Witness for C4 (amended): `writeHead(999999)` fails with
`InvalidStatusCode 999999` and no state transition occurs. -/
theorem c4_range_witness :
    initState.header.isSome = false ∧
    (toInt32 999999 < 100 ∨ 999 < toInt32 999999) ∧
    writeHead initState 999999 none none =
      (initState, some (HttpError.invalidStatusCode 999999)) :=
  ⟨by decide, by decide,
   c4_range_check_after_truncation initState 999999 none none (by decide) (by decide)⟩

/-- C5: once `_header` is recorded (headers sent), any further `writeHead`
fails with `HeadersAlreadySent` and the state — including the
already-resolved response value — is completely unchanged. -/
theorem c5_writeHead_after_sent_fails (s : SrvState) (code : Int)
    (reason : Option ReasonArg) (obj : Option HeadersArg)
    (h : s.header.isSome = true) :
    writeHead s code reason obj = (s, some HttpError.headersSent) := by
  unfold writeHead
  simp [h]

/-- Witness for C5: a second `writeHead` after a successful `writeHead(200)`
fails with `HeadersAlreadySent` and changes nothing. -/
theorem c5_witness :
    (writeHead initState 200 none none).1.header.isSome = true ∧
    writeHead (writeHead initState 200 none none).1 204 none none =
      ((writeHead initState 200 none none).1, some HttpError.headersSent) :=
  ⟨by decide, c5_writeHead_after_sent_fails _ 204 none none (by decide)⟩

/-- C7: that scenario resolves to status 200, carries the
`content-type: text/plain` header, and its body bytes are
`[104, 101, 108, 108, 111]`, the UTF-8 encoding of `"hello"`. -/
theorem c7_hello_scenario :
    (textPlainScenario.resolved.map ResolvedResponse.status) = some 200 ∧
    ("content-type".data, "text/plain".data) ∈
      (textPlainScenario.resolved.map ResolvedResponse.headers).getD [] ∧
    responseBodyBytes textPlainScenario = some [104, 101, 108, 108, 111] := by
  decide

/-- C10: once the finish signal has fired (`finished = true`), a
`_dataWritten` event is ignored by whichever handler is subscribed — the
pre-resolution buffering handler and the post-resolution stream handler both
return without touching the state, so post-finish writes contribute no
bytes to the body. -/
theorem c10_finished_drops_data_events (s : SrvState) (idx : Nat)
    (entry : WriteEntry) (h : s.finished = true) :
    deliverDataWritten s idx entry = (s, true) := by
  unfold deliverDataWritten
  split <;> simp [h]

/-- Witness for C10: a concrete finished state ignores a data event. -/
theorem c10_witness :
    ({ initState with finished := true } : SrvState).finished = true ∧
    deliverDataWritten { initState with finished := true } 0
        { data := Payload.str [], encoding := none } =
      ({ initState with finished := true }, true) :=
  ⟨rfl, c10_finished_drops_data_events _ 0 _ rfl⟩

theorem writeHead_resolved (s : SrvState) (code : Int) (reason : Option ReasonArg)
    (obj : Option HeadersArg) :
    (writeHead s code reason obj).1.resolved = s.resolved := by
  unfold writeHead
  simp only [storeHeader]
  repeat' split
  all_goals simp

theorem writeHead_hasBody (s : SrvState) (code : Int) (reason : Option ReasonArg)
    (obj : Option HeadersArg) (h : s.hasBody = false) :
    (writeHead s code reason obj).1.hasBody = false := by
  unfold writeHead
  simp only [storeHeader]
  repeat' split
  all_goals simp [h]

theorem deliver_resolved (s : SrvState) (idx : Nat) (entry : WriteEntry) :
    (deliverDataWritten s idx entry).1.resolved = s.resolved := by
  unfold deliverDataWritten
  repeat' split
  all_goals simp

theorem deliver_hasBody (s : SrvState) (idx : Nat) (entry : WriteEntry) :
    (deliverDataWritten s idx entry).1.hasBody = s.hasBody := by
  unfold deliverDataWritten
  repeat' split
  all_goals simp

theorem emitHeadersSent_inv (s : SrvState) (h : NoBodyInv s) :
    NoBodyInv (emitHeadersSent s) := by
  obtain ⟨h1, h2⟩ := h
  unfold emitHeadersSent
  split
  · exact ⟨h1, h2⟩
  · rw [if_neg (by simp [h1])]
    refine ⟨h1, ?_⟩
    intro r hr
    simp at hr
    rw [← hr]
    exact h1

theorem emitFinish_inv (s : SrvState) (h : NoBodyInv s) :
    NoBodyInv (emitFinish s) := by
  obtain ⟨h1, h2⟩ := h
  exact ⟨h1, h2⟩

theorem deliver_inv (s : SrvState) (idx : Nat) (entry : WriteEntry)
    (h : NoBodyInv s) : NoBodyInv (deliverDataWritten s idx entry).1 :=
  ⟨by rw [deliver_hasBody]; exact h.1,
   fun r hr => h.2 r (by rwa [deliver_resolved] at hr)⟩

theorem applyDataEvent_inv (s : SrvState) (idx : Nat) (entry : WriteEntry)
    (h : NoBodyInv s) : NoBodyInv (applyDataEvent s idx entry) := by
  have hd := deliver_inv s idx entry h
  unfold applyDataEvent
  split
  · next s1 heq =>
    rw [heq] at hd
    split
    · exact emitHeadersSent_inv _ hd
    · exact hd
  · next s1 heq =>
    rw [heq] at hd
    exact hd

theorem writeAfterHeaders_inv (s : SrvState) (p : Payload)
    (enc : Option (List Char)) (h : NoBodyInv s) :
    NoBodyInv (writeAfterHeaders s p enc) :=
  applyDataEvent_inv _ _ _ ⟨h.1, h.2⟩

theorem writeHead_inv (s : SrvState) (code : Int) (reason : Option ReasonArg)
    (obj : Option HeadersArg) (h : NoBodyInv s) :
    NoBodyInv (writeHead s code reason obj).1 :=
  ⟨writeHead_hasBody _ _ _ _ h.1,
   fun r hr => h.2 r (by rwa [writeHead_resolved] at hr)⟩

theorem write_inv (s : SrvState) (p : Payload) (enc : Option (List Char))
    (h : NoBodyInv s) : NoBodyInv (write s p enc).1 := by
  unfold write
  split
  · next s1 err heq =>
    split at heq
    · have h1 := writeHead_inv s s.statusCode none none h
      rw [heq] at h1
      exact h1
    · cases heq
  · next s1 heq =>
    have h1 : NoBodyInv s1 := by
      split at heq
      · have h2 := writeHead_inv s s.statusCode none none h
        rw [heq] at h2
        exact h2
      · cases heq
        exact h
    exact writeAfterHeaders_inv _ _ _ h1

theorem emitFinish_inv2 (s : SrvState) (h : NoBodyInv s) :
    NoBodyInv (emitFinish s) :=
  ⟨h.1, h.2⟩

theorem endFn_inv (s : SrvState) (chunk : Option (Payload × Option (List Char)))
    (h : NoBodyInv s) : NoBodyInv (endFn s chunk).1 := by
  unfold endFn
  have hflush : ∀ fl : SrvState × Option HttpError,
      NoBodyInv fl.1 →
      NoBodyInv ((match fl with
        | (s1, some err) => (s1, some err)
        | (s1, none) =>
          match (if s1.nextIndex = 0 then write s1 (Payload.str []) none else (s1, none)) with
          | (s2, some err) => (s2, some err)
          | (s2, none) => (emitFinish s2, none)) : SrvState × Option HttpError).1 := by
    intro fl hfl
    split
    · exact hfl
    · next s1 =>
      split
      · next s2 err heq =>
        split at heq
        · have h2 := write_inv s1 (Payload.str []) none hfl
          rw [heq] at h2
          exact h2
        · cases heq
      · next s2 heq =>
        have h2 : NoBodyInv s2 := by
          split at heq
          · have h3 := write_inv s1 (Payload.str []) none hfl
            rw [heq] at h3
            exact h3
          · cases heq
            exact hfl
        exact emitFinish_inv2 _ h2
  split
  · next pe =>
    exact hflush (write s pe.1 pe.2) (write_inv s pe.1 pe.2 h)
  · exact hflush (s, none) h

theorem stepOp_inv (s : SrvState) (op : ServerOp) (h : NoBodyInv s) :
    NoBodyInv (stepOp s op) := by
  cases op with
  | writeOp p e => exact write_inv s p e h
  | endWith c => exact endFn_inv s c h
  | writeHeadOp c r o => exact writeHead_inv s c r o h

theorem run_inv (s : SrvState) (ops : List ServerOp) (h : NoBodyInv s) :
    NoBodyInv (run s ops) := by
  induction ops generalizing s with
  | nil => exact h
  | cons op rest ih => exact ih (stepOp s op) (stepOp_inv s op h)

theorem responseBody_of_inv (s : SrvState) (h : NoBodyInv s) :
    responseBody s = none := by
  unfold responseBody
  split
  · rfl
  · next r heq => rw [if_neg (by rw [h.2 r heq]; exact Bool.false_ne_true)]

theorem writeHead_noBody_code (s : SrvState) (code : Int) (reason : Option ReasonArg)
    (obj : Option HeadersArg)
    (hok : (writeHead s code reason obj).2 = none)
    (hc : code = 204 ∨ code = 304 ∨ (100 ≤ code ∧ code ≤ 199)) :
    (writeHead s code reason obj).1.hasBody = false := by
  have h0 : (0 : Int) ≤ code := by rcases hc with h | h | h <;> omega
  have h1 : code < 2147483648 := by rcases hc with h | h | h <;> omega
  have h32 : toInt32 code = code := toInt32_of_lt code h0 h1
  have hrange : ¬ (toInt32 code < 100 ∨ 999 < toInt32 code) := by
    rw [h32]
    rcases hc with h | h | h <;> omega
  have hcond : toInt32 code = 204 ∨ toInt32 code = 304 ∨
      (100 ≤ toInt32 code ∧ toInt32 code ≤ 199) := by rw [h32]; exact hc
  unfold writeHead at hok ⊢
  simp only [storeHeader] at hok ⊢
  rw [if_neg hrange] at hok ⊢
  repeat' split
  all_goals simp_all

/-- C3: for every status code equal to 204, 304 or in 100..199 accepted by
`writeHead`, the resolved response has a `null` body no matter which writes
or other calls are attempted afterwards (`_hasBody` is cleared and the
resolution snapshot copies it, so `_toFetchResponse` builds the `Response`
with a `null` body). -/
theorem c3_no_body_statuses (s : SrvState) (code : Int) (reason : Option ReasonArg)
    (obj : Option HeadersArg) (ops : List ServerOp)
    (hres : s.resolved = none)
    (hok : (writeHead s code reason obj).2 = none)
    (hc : code = 204 ∨ code = 304 ∨ (100 ≤ code ∧ code ≤ 199)) :
    responseBody (run (writeHead s code reason obj).1 ops) = none := by
  have hnb : NoBodyInv (writeHead s code reason obj).1 := by
    refine ⟨writeHead_noBody_code s code reason obj hok hc, ?_⟩
    intro r hr
    rw [writeHead_resolved, hres] at hr
    cases hr
  exact responseBody_of_inv _ (run_inv _ ops hnb)

/-- Witness for C3: `writeHead(204)` followed by `end()` resolves with a
`null` body. -/
theorem c3_witness :
    initState.resolved = none ∧
    (writeHead initState 204 none none).2 = none ∧
    ((204 : Int) = 204 ∨ (204 : Int) = 304 ∨ (100 ≤ (204 : Int) ∧ (204 : Int) ≤ 199)) ∧
    responseBody (run (writeHead initState 204 none none).1 [ServerOp.endWith none]) = none :=
  ⟨rfl, by decide, Or.inl rfl,
   c3_no_body_statuses initState 204 none none [ServerOp.endWith none] rfl (by decide)
     (Or.inl rfl)⟩

/-- C9: a response paired with a `HEAD` request has `_hasBody` cleared at
construction, and therefore resolves with a `null` body regardless of the
status code set and of any body writes attempted. -/
theorem c9_head_request_null_body :
    (mkResponse "HEAD".data).hasBody = false ∧
    ∀ ops : List ServerOp, responseBody (run (mkResponse "HEAD".data) ops) = none := by
  have h : NoBodyInv (mkResponse "HEAD".data) := by
    constructor
    · decide
    · intro r hr
      simp [mkResponse] at hr
  exact ⟨h.1, fun ops => responseBody_of_inv _ (run_inv _ ops h)⟩

/-- C8: when `writeHead` is not given a string reason phrase and no status
message was previously set, the status message it records — used for the
status line and the resolution snapshot — is the default reason phrase from
the `STATUS_CODES` table, falling back to `"unknown"` for codes not in the
table (`defaultReason`). -/
theorem c8_default_reason_phrase (s : SrvState) (code : Int)
    (reason : Option ReasonArg) (obj : Option HeadersArg)
    (hh : s.header.isSome = false)
    (hmsg : s.statusMessage = none)
    (hph : ∀ r, reason ≠ some (ReasonArg.phrase r))
    (hlo : 100 ≤ toInt32 code) (hhi : toInt32 code ≤ 999) :
    (writeHead s code reason obj).1.statusMessage =
      some (defaultReason (toInt32 code).toNat) := by
  have hrange : ¬ (toInt32 code < 100 ∨ 999 < toInt32 code) := by omega
  have hcond : ¬ (s.header.isSome = true) := by simp [hh]
  unfold writeHead
  simp only [storeHeader]
  rw [if_neg hcond, if_neg hrange]
  repeat' split
  all_goals first
    | exact absurd rfl (hph _)
    | simp_all [defaultMsg]

/-- Witness for C8: `writeHead(998)` on a fresh response uses the fallback
reason phrase `"unknown"` (998 is not in the lookup table). -/
theorem c8_witness :
    (initState.header.isSome = false ∧ initState.statusMessage = none ∧
     (∀ r, (none : Option ReasonArg) ≠ some (ReasonArg.phrase r)) ∧
     100 ≤ toInt32 998 ∧ toInt32 998 ≤ 999) ∧
    STATUS_CODES 998 = none ∧
    defaultReason (toInt32 998).toNat = "unknown".data ∧
    (writeHead initState 998 none none).1.statusMessage =
      some (defaultReason (toInt32 998).toNat) :=
  ⟨⟨by decide, rfl, fun r h => Option.noConfusion h, by decide, by decide⟩,
   rfl, by decide,
   c8_default_reason_phrase initState 998 none none (by decide) rfl
     (fun r h => Option.noConfusion h) (by decide) (by decide)⟩

theorem implicitBlock_drop (c : List Char) :
    (implicitBlock ++ c).drop 19 = c := by
  have h := dropLenAppend implicitBlock c
  rwa [show implicitBlock.length = 19 from rfl] at h

theorem encodeIfString_utf8 (c : List Char) :
    encodeIfString (Payload.str c) none = Payload.bytes (utf8Encode c) := by
  simp [encodeIfString]

/-- The first string body write on a fresh response: headers are synthesized
implicitly (default status 200), the header block is prepended to the chunk
and stripped again during materialization, the stripped bytes are buffered,
and the promise resolves with the buffered chunk already enqueued. -/
theorem writeStr_init (c0 : List Char) :
    writeStr initState c0 =
      { sentState with
          nextIndex := 1
          initialDataChunks := [some (Payload.bytes (utf8Encode c0))]
          resolved := some resolved200
          streamChunks := [Payload.bytes (utf8Encode c0)] } := by
  have h : (if initState.header.isNone then
        writeHead initState initState.statusCode none none
      else (initState, none)) = (sentState, none) := by decide
  unfold writeStr write
  rw [h]
  show writeAfterHeaders sentState (Payload.str c0) none = _
  have hdrop : (implicitBlock ++ c0).drop 19 = c0 := implicitBlock_drop c0
  simp [writeAfterHeaders, firstChunkData, applyDataEvent, deliverDataWritten,
        dataFromDataWrittenEvent, emitHeadersSent, sparseSet, sentState,
        initState, mkResponse, resolved200, hdrop, encodeIfString_utf8,
        lowerChars]

/-- A string body write after the promise has resolved (with a body, not
finished): the chunk's UTF-8 bytes are appended to the stream, in order. -/
theorem writeStr_after_resolved (s : SrvState) (r : ResolvedResponse)
    (c : List Char)
    (h1 : s.resolved = some r) (h2 : r.hasBody = true) (h3 : s.finished = false)
    (h4 : s.header.isNone = false) (h5 : s.nextIndex ≠ 0) :
    writeStr s c =
      { s with nextIndex := s.nextIndex + 1
               streamChunks := s.streamChunks ++ [Payload.bytes (utf8Encode c)] } := by
  have hcond : ¬ (s.header.isNone = true) := by simp [h4]
  unfold writeStr write
  rw [if_neg hcond]
  show writeAfterHeaders s (Payload.str c) none = _
  simp [writeAfterHeaders, firstChunkData, applyDataEvent, deliverDataWritten,
        dataFromDataWrittenEvent, encodeIfString_utf8, h1, h2, h3, h5]

/-- Repeated string writes after resolution append their UTF-8 chunks to the
stream in write order. -/
theorem runWrites_after_resolved (s : SrvState) (r : ResolvedResponse)
    (cs : List (List Char))
    (h1 : s.resolved = some r) (h2 : r.hasBody = true) (h3 : s.finished = false)
    (h4 : s.header.isNone = false) (h5 : s.nextIndex ≠ 0) :
    runWrites s cs =
      { s with nextIndex := s.nextIndex + cs.length
               streamChunks := s.streamChunks ++
                 cs.map (fun c => Payload.bytes (utf8Encode c)) } := by
  induction cs generalizing s with
  | nil => simp [runWrites]
  | cons c cs ih =>
    have hstep := writeStr_after_resolved s r c h1 h2 h3 h4 h5
    have hrec := ih { s with nextIndex := s.nextIndex + 1
                             streamChunks := s.streamChunks ++ [Payload.bytes (utf8Encode c)] }
      h1 h3 h4 (by simp)
    calc runWrites s (c :: cs)
        = runWrites (writeStr s c) cs := by simp [runWrites]
      _ = _ := by
            rw [hstep, hrec]
            simp [List.append_assoc, Nat.add_assoc, Nat.add_comm, Nat.add_left_comm]

/-- A fresh response taking string writes `c0 :: cs`: headers go out
implicitly with status 200 during the first write, chunk 0's stripped bytes
are buffered and then enqueued first, and every later chunk is appended in
write order after resolution. -/
theorem runWrites_init_eq (c0 : List Char) (cs : List (List Char)) :
    runWrites initState (c0 :: cs) =
      { sentState with
          nextIndex := 1 + cs.length
          initialDataChunks := [some (Payload.bytes (utf8Encode c0))]
          resolved := some resolved200
          streamChunks := Payload.bytes (utf8Encode c0) ::
            cs.map (fun c => Payload.bytes (utf8Encode c)) } := by
  have h0 : runWrites initState (c0 :: cs) = runWrites (writeStr initState c0) cs := by
    simp [runWrites]
  rw [h0, writeStr_init c0]
  rw [runWrites_after_resolved _ resolved200 cs (by simp) rfl (by simp [sentState, initState, mkResponse]) (by simp [sentState, initState, mkResponse]) (by simp)]
  simp

/-- C2: for a sequence of body writes (indices 0..N, strictly increasing by
construction) with no explicit `writeHead`, headers are implicitly sent with
default status 200, and chunk 0 appears in the exposed body with the
synthesized header-block prefix (`writtenHeaderBytes` leading code units)
stripped — only the written payload's UTF-8 bytes remain. -/
theorem c2_implicit_headers_chunk0_stripped (c0 : List Char) (cs : List (List Char)) :
    (runWrites initState (c0 :: cs)).resolved.map ResolvedResponse.status = some 200 ∧
    (runWrites initState (c0 :: cs)).streamChunks.head? =
      some (Payload.bytes (utf8Encode c0)) := by
  rw [runWrites_init_eq c0 cs]
  simp [resolved200]

/-- C6: in a consumed body, the chunk written before the response value
resolves (chunk 0, buffered by the pre-resolution handler) comes first, and
every chunk written after resolution follows it, in write order, with no
re-sorting. -/
theorem c6_chunks_in_write_order (c0 : List Char) (cs : List (List Char)) :
    (runWrites initState (c0 :: cs)).streamChunks =
      Payload.bytes (utf8Encode c0) ::
        cs.map (fun c => Payload.bytes (utf8Encode c)) := by
  rw [runWrites_init_eq c0 cs]
